import Mathlib

/-!
Shallow embedding of the task-stack core of the HiQP control framework
(`hiqp_core`): the geometric primitives (`GeometricPoint`,
`GeometricBox`), the SDF collision-avoidance task definition
(`TaskAvoidCollisionsSDF`), and the `Task` orchestration layer
(`Task::init`, `Task::update`, `Task::checkConsistency`,
`Task::constructDefinition`, `Task::constructDynamics`).

Real-valued quantities are modelled over `ℚ`.  Calls into external
libraries — the KDL forward-kinematics solvers, the SDF collision
checker, Eigen's Euler-angle/quaternion conversions and the numeric
square root inside `Eigen`'s `norm()` — are modelled as function
parameters, mirroring the narrow interfaces through which the core
consumes them.  `none` results model C++ aborts (failed `assert`s and
uncaught exceptions), which are distinct from negative return codes.
-/

namespace Hiqp

/-- Vector of 3 components over `ℚ` (models `Eigen::Vector3d` / `KDL::Vector`). -/
structure Vec3 where
  x : ℚ
  y : ℚ
  z : ℚ
deriving DecidableEq, Repr

def Vec3.zero : Vec3 := ⟨0, 0, 0⟩

def Vec3.add (a b : Vec3) : Vec3 := ⟨a.x + b.x, a.y + b.y, a.z + b.z⟩

def Vec3.smul (c : ℚ) (v : Vec3) : Vec3 := ⟨c * v.x, c * v.y, c * v.z⟩

def Vec3.dot (a b : Vec3) : ℚ := a.x * b.x + a.y * b.y + a.z * b.z

def Vec3.cross (a b : Vec3) : Vec3 :=
  ⟨a.y * b.z - a.z * b.y, a.z * b.x - a.x * b.z, a.x * b.y - a.y * b.x⟩

/-- Squared Euclidean norm of a 3-vector. -/
def Vec3.sqNorm (v : Vec3) : ℚ := v.x * v.x + v.y * v.y + v.z * v.z

/-- Models `v.norm()`: the square root is the external floating-point `sqrt`,
passed in as `sq`. -/
def norm3 (sq : ℚ → ℚ) (v : Vec3) : ℚ := sq v.sqNorm

/-- Models `v.normalize()`: division by the Euclidean norm. -/
def normalize3 (sq : ℚ → ℚ) (v : Vec3) : Vec3 := Vec3.smul (1 / norm3 sq v) v

/-- Models a `KDL::Twist`: linear and angular velocity parts.  A column of a
6-row KDL Jacobian is one twist. -/
structure Twist where
  vel : Vec3
  rot : Vec3
deriving DecidableEq, Repr

def Twist.zero : Twist := ⟨Vec3.zero, Vec3.zero⟩

/-- Matrix of shape 3×3, stored as three rows. -/
structure Mat3 where
  r1 : Vec3
  r2 : Vec3
  r3 : Vec3
deriving DecidableEq, Repr

def Mat3.mulVec (m : Mat3) (v : Vec3) : Vec3 :=
  ⟨m.r1.dot v, m.r2.dot v, m.r3.dot v⟩

def Mat3.diag (a b c : ℚ) : Mat3 := ⟨⟨a, 0, 0⟩, ⟨0, b, 0⟩, ⟨0, 0, c⟩⟩

/-- A `KDL::Frame`: rotation and translation. -/
structure Frame where
  M : Mat3
  p : Vec3
deriving DecidableEq, Repr

/-- Dynamically sized matrix (`Eigen::MatrixXd`): the column count plus
the list of rows (a default-constructed matrix is 0×0). -/
structure MatQ where
  cols : ℕ
  rows : List (List ℚ)
deriving DecidableEq, Repr

/-- The robot state visible to tasks: number of joints, the per-joint
writability flag (`isQNrWritable`), and the kinematic tree, modelled by
the link-name lookup `kdl_getQNrFromLinkName` (returning `-1` when the
link is not in the tree) and the root segment name. -/
structure RobotState where
  numJoints : ℕ
  writable : ℕ → Bool
  qnrFromLinkName : String → Int
  rootName : String

/-- State of `GeometricPoint`: name and reference frame from the base
`GeometricPrimitive`, plus the parsed coordinates, kept both as
`kdl_p_` and `eigen_p_` exactly as in the source. -/
structure GeometricPoint where
  name : String := ""
  frameId : String := ""
  kdl_p : Vec3 := Vec3.zero
  eigen_p : Vec3 := Vec3.zero
deriving DecidableEq, Repr

/-- Source `GeometricPoint::init`: requires exactly 3 parameters, otherwise
returns `-1` leaving the members untouched; on success stores the three
coordinates in `kdl_p_` and mirrors them into `eigen_p_`. -/
def GeometricPoint.init (parameters : List ℚ) (st : GeometricPoint) :
    Int × GeometricPoint :=
  match parameters with
  | [a, b, c] =>
      let p : Vec3 := ⟨a, b, c⟩
      (0, { st with kdl_p := p, eigen_p := p })
  | _ => (-1, st)

def GeometricPoint.getX (st : GeometricPoint) : ℚ := st.kdl_p.x

def GeometricPoint.getY (st : GeometricPoint) : ℚ := st.kdl_p.y

def GeometricPoint.getZ (st : GeometricPoint) : ℚ := st.kdl_p.z

def GeometricPoint.getPointKDL (st : GeometricPoint) : Vec3 := st.kdl_p

/-- Quaternion (w, x, y, z). -/
structure Quat where
  w : ℚ
  x : ℚ
  y : ℚ
  z : ℚ
deriving DecidableEq, Repr

/-- External Eigen/KDL conversion routines used by `GeometricBox::init`:
the composition of the three `Eigen::AngleAxisd` rotations converted to
a quaternion, and `KDL::Rotation::Quaternion`.  Both involve
transcendental functions of external libraries and are model
parameters. -/
structure EigenExt where
  eulerXYZToQuat : ℚ → ℚ → ℚ → Quat
  quatToRotKDL : Quat → Mat3

/-- State of `GeometricBox`: parsed center, dimensions, orientation and the
derived scaling matrices. -/
structure GeometricBox where
  name : String := ""
  frameId : String := ""
  kdl_c : Vec3 := Vec3.zero
  eigen_c : Vec3 := Vec3.zero
  kdl_dim : Vec3 := Vec3.zero
  eigen_dim : Vec3 := Vec3.zero
  q : Quat := ⟨1, 0, 0, 0⟩
  rotation_kdl : Mat3 := Mat3.diag 1 1 1
  scaling_kdl : Mat3 := Mat3.diag 1 1 1
  scaling_inverted_kdl : Mat3 := Mat3.diag 1 1 1
  scaling_eigen : Mat3 := Mat3.diag 1 1 1
deriving DecidableEq, Repr

/-- Source `GeometricBox::init`: accepts 6, 9 or 10 parameters (center +
dimensions, optionally xyz Euler angles or a `[w,x,y,z]` quaternion for
the orientation), otherwise returns `-1` leaving the members
untouched. -/
def GeometricBox.init (ext : EigenExt) (parameters : List ℚ)
    (st : GeometricBox) : Int × GeometricBox :=
  let size := parameters.length
  if size ≠ 6 ∧ size ≠ 9 ∧ size ≠ 10 then (-1, st)
  else
    let g := fun i => parameters.getD i 0
    let c : Vec3 := ⟨g 0, g 1, g 2⟩
    let dim : Vec3 := ⟨g 3, g 4, g 5⟩
    let q : Quat :=
      if size = 9 then ext.eulerXYZToQuat (g 6) (g 7) (g 8)
      else if size = 10 then ⟨g 6, g 7, g 8, g 9⟩
      else ⟨1, 0, 0, 0⟩
    (0, { st with
          kdl_c := c, eigen_c := c, kdl_dim := dim, eigen_dim := dim,
          q := q,
          rotation_kdl := ext.quatToRotKDL q,
          scaling_kdl := Mat3.diag (1 / dim.x) (1 / dim.y) (1 / dim.z),
          scaling_inverted_kdl := Mat3.diag dim.x dim.y dim.z,
          scaling_eigen := Mat3.diag (1 / dim.x) (1 / dim.y) (1 / dim.z) })

def GeometricBox.getCenterX (st : GeometricBox) : ℚ := st.kdl_c.x

def GeometricBox.getCenterY (st : GeometricBox) : ℚ := st.kdl_c.y

def GeometricBox.getCenterZ (st : GeometricBox) : ℚ := st.kdl_c.z

def GeometricBox.getDimX (st : GeometricBox) : ℚ := st.kdl_dim.x

def GeometricBox.getDimY (st : GeometricBox) : ℚ := st.kdl_dim.y

def GeometricBox.getDimZ (st : GeometricBox) : ℚ := st.kdl_dim.z

/-- Modelled from the spec: the `GeometricSphere` class body is not part
of this snapshot; its call sites use the accessors `getFrameId`,
`getX`/`getY`/`getZ` (the center) and `getRadius`, so the model keeps
exactly that data. -/
structure GeometricSphere where
  name : String := ""
  frameId : String := ""
  center : Vec3 := Vec3.zero
  radius : ℚ := 0
deriving DecidableEq, Repr

/-- A primitive stored in the `GeometricPrimitiveMap`, tagged by its
dynamic type: `getGeometricPrimitive<T>(name)` returns non-null exactly
when the stored primitive's dynamic type matches `T`. -/
inductive GeomPrim where
  | point (pt : GeometricPoint)
  | sphere (s : GeometricSphere)
  | other (ty : String) (frameId : String) (name : String)
deriving DecidableEq, Repr

instance : Inhabited GeomPrim := ⟨.other "" "" ""⟩

/-- Source `GeometricPrimitive::getType`. -/
def GeomPrim.getType : GeomPrim → String
  | .point _ => "point"
  | .sphere _ => "sphere"
  | .other ty _ _ => ty

def GeomPrim.getFrameId : GeomPrim → String
  | .point pt => pt.frameId
  | .sphere s => s.frameId
  | .other _ f _ => f

/-- The primitive registry, keyed by unique name. -/
abbrev GeometricPrimitiveMap := List (String × GeomPrim)

/-- Mutable data of a `TaskDefinition`: the base-class members `e_`,
`J_`, `task_types_`, plus the `TaskAvoidCollisionsSDF` members needed by
the claims (`primitives_`, `n_dimensions_`, `root_frame_id_`).  Task
types are encoded as in the source comment: `-1` leq, `0` eq, `1` geq. -/
structure TaskDefinitionState where
  e : List ℚ := []
  J : MatQ := ⟨0, []⟩
  taskTypes : List Int := []
  primitives : List GeomPrim := []
  nDimensions : ℕ := 0
  rootFrameId : String := ""
deriving DecidableEq, Repr

/-- Mutable data of a `TaskDynamics`: the base-class member
`e_dot_star_`. -/
structure TaskDynamicsState where
  eDotStar : List ℚ := []
deriving DecidableEq, Repr

/-- External collaborators of `TaskAvoidCollisionsSDF` during one cycle:
the two KDL tree solvers (a `none` result models a negative return), the
SDF collision checker (`obstacleGradientBulk` taking the test points and
the root frame id, returning `false` = `none`; `isValid`), and the
numeric square root used by `norm()`/`normalize()`. -/
structure SdfEnv where
  jntToCart : String → Option Frame
  jntToJac : String → Option (List Twist)
  obstacleGradientBulk : List Vec3 → String → Option (List Vec3)
  isValid : Vec3 → Bool
  sqrtFn : ℚ → ℚ

/-- Struct `KinematicQuantities`: frame name, end-effector frame, Jacobian and
end-effector position. -/
structure KinQ where
  frameId : String
  frame : Frame
  jac : List Twist
  eeP : Vec3
deriving DecidableEq, Repr

namespace TaskAvoidCollisionsSDF

/-- Source `TaskAvoidCollisionsSDF::reset`. -/
def reset (st : TaskDefinitionState) : TaskDefinitionState :=
  { st with nDimensions := 0, taskTypes := [], primitives := [] }

/-- The loop of `TaskAvoidCollisionsSDF::init` over the listed primitive
names: each must resolve to a point or a sphere in the map, whose
reference frame must be a link of the kinematic tree
(`kdl_getQNrFromLinkName ≠ -1`); each accepted primitive is pushed and
`n_dimensions_` incremented; any failure returns `-2` at once. -/
def initLoop (gpm : GeometricPrimitiveMap) (rs : RobotState) :
    List String → TaskDefinitionState → Int × TaskDefinitionState
  | [], st => (0, st)
  | nm :: rest, st =>
    match gpm.lookup nm with
    | some (.point pt) =>
        if rs.qnrFromLinkName pt.frameId = -1 then (-2, st)
        else initLoop gpm rs rest
          { st with primitives := st.primitives ++ [.point pt],
                    nDimensions := st.nDimensions + 1 }
    | some (.sphere s) =>
        if rs.qnrFromLinkName s.frameId = -1 then (-2, st)
        else initLoop gpm rs rest
          { st with primitives := st.primitives ++ [.sphere s],
                    nDimensions := st.nDimensions + 1 }
    | _ => (-2, st)

/-- A listed primitive name is accepted by the `init` loop iff it
resolves in the map to a point or a sphere whose reference frame is a
link of the kinematic tree. -/
def goodNameB (gpm : GeometricPrimitiveMap) (rs : RobotState)
    (nm : String) : Bool :=
  match gpm.lookup nm with
  | some (.point pt) => rs.qnrFromLinkName pt.frameId != -1
  | some (.sphere s) => rs.qnrFromLinkName s.frameId != -1
  | _ => false

/-- Source `TaskAvoidCollisionsSDF::init`: fails with `-2` on fewer than 2
parameters; otherwise resets, resolves every listed primitive, fills
`task_types_` with `n_dimensions_` copies of `1` (GREATER_OR_EQUAL) and
remembers the root frame name.  `e_` and `J_` are never resized here. -/
def init (gpm : GeometricPrimitiveMap) (rs : RobotState)
    (parameters : List String) (st : TaskDefinitionState) :
    Int × TaskDefinitionState :=
  if parameters.length < 2 then (-2, st)
  else
    match initLoop gpm rs parameters.tail (reset st) with
    | (0, st2) =>
        (0, { st2 with taskTypes := List.replicate st2.nDimensions 1,
                       rootFrameId := rs.rootName })
    | (c, st2) => (c, st2)

/-- The masking loop at the end of
`TaskAvoidCollisionsSDF::forwardKinematics`, at column offset `i`:
columns of non-writable joints are set to the zero twist. -/
def maskColumnsAux (rs : RobotState) : ℕ → List Twist → List Twist
  | _, [] => []
  | i, c :: rest =>
      (if i < rs.numJoints ∧ rs.writable i = false then Twist.zero else c) ::
        maskColumnsAux rs (i + 1) rest

def maskColumns (rs : RobotState) (cols : List Twist) : List Twist :=
  maskColumnsAux rs 0 cols

/-- Source `TaskAvoidCollisionsSDF::forwardKinematics`: end-effector FK and
Jacobian through the external KDL solvers, then the masking of columns
of non-writable joints. -/
def forwardKinematics (env : SdfEnv) (rs : RobotState) (frameId : String) :
    Option (Frame × List Twist) :=
  match env.jntToCart frameId with
  | none => none
  | some fr =>
    match env.jntToJac frameId with
    | none => none
    | some jac => some (fr, maskColumns rs jac)

/-- External `KDL::Jacobian::changeRefPoint`: each column twist `(v, ω)` becomes
`(v + ω × p, ω)`. -/
def changeRefPoint (p : Vec3) (cols : List Twist) : List Twist :=
  cols.map fun t => ⟨t.vel.add (t.rot.cross p), t.rot⟩

/-- Source `TaskAvoidCollisionsSDF::primitiveForwardKinematics`: FK for the
primitive's frame, shift of the Jacobian reference point to the
primitive, and the primitive's position in the base frame.  Points and
spheres yield exactly one `KinematicQuantities` entry; other primitive
types are unimplemented and fail. -/
def primitiveForwardKinematics (env : SdfEnv) (rs : RobotState) :
    GeomPrim → Option (List KinQ)
  | .point pt =>
    match forwardKinematics env rs pt.frameId with
    | none => none
    | some (fr, jac) =>
      let coord := pt.kdl_p
      some [⟨pt.frameId, fr, changeRefPoint (fr.M.mulVec coord) jac,
             fr.p.add (fr.M.mulVec coord)⟩]
  | .sphere s =>
    match forwardKinematics env rs s.frameId with
    | none => none
    | some (fr, jac) =>
      let coord := s.center
      some [⟨s.frameId, fr, changeRefPoint (fr.M.mulVec coord) jac,
             fr.p.add (fr.M.mulVec coord)⟩]
  | .other _ _ _ => none

/-- One iteration of the loop in
`TaskAvoidCollisionsSDF::appendTaskJacobian`: a zero row is inserted for
an invalid gradient; otherwise the row is `-(g/‖g‖)ᵀ · Jvel`, `Jvel`
being the velocity (top-3-rows) part of the primitive's Jacobian.
`none` models the Eigen assertion failing when the produced row's length
differs from the matrix's column count. -/
def appendRow (env : SdfEnv) (cols : ℕ) (kq : KinQ) (g : Vec3) :
    Option (List ℚ) :=
  if env.isValid g then
    let row := kq.jac.map fun tw => -(Vec3.dot (normalize3 env.sqrtFn g) tw.vel)
    if row.length = cols then some row else none
  else some (List.replicate cols 0)

def buildRows (env : SdfEnv) (cols : ℕ) :
    List (KinQ × Vec3) → Option (List (List ℚ))
  | [] => some []
  | kg :: rest =>
    match appendRow env cols kg.1 kg.2 with
    | none => none
    | some r => (buildRows env cols rest).map fun more => r :: more

/-- Source `TaskAvoidCollisionsSDF::appendTaskJacobian`: asserts
`kin_q_list.size() == gradients.size()` and appends one row per
gradient. -/
def appendTaskJacobian (env : SdfEnv) (kinqs : List KinQ)
    (grads : List Vec3) (J : MatQ) : Option MatQ :=
  if kinqs.length = grads.length then
    (buildRows env J.cols (kinqs.zip grads)).map fun newRows =>
      ⟨J.cols, J.rows ++ newRows⟩
  else none

/-- Constant `SAFETY_DISTANCE` (0.005), subtracted from the gradient norm. -/
def SAFETY_DISTANCE : ℚ := 5 / 1000

/-- The task-function value appended for one gradient in
`TaskAvoidCollisionsSDF::appendTaskFunction`: `0` for an invalid
gradient, `‖g‖ - SAFETY_DISTANCE` for a point, additionally minus the
radius for a sphere, and `0` (with a warning) for unimplemented types. -/
def taskFunVal (env : SdfEnv) (primitive : GeomPrim) (g : Vec3) : ℚ :=
  if env.isValid g then
    let d := norm3 env.sqrtFn g - SAFETY_DISTANCE
    match primitive with
    | .point _ => d
    | .sphere s => d - s.radius
    | .other _ _ _ => 0
  else 0

/-- Source `TaskAvoidCollisionsSDF::appendTaskFunction`: asserts
`kin_q_list.size() == gradients.size()` and appends one entry per
gradient. -/
def appendTaskFunction (env : SdfEnv) (primitive : GeomPrim)
    (kinqs : List KinQ) (grads : List Vec3) (e : List ℚ) :
    Option (List ℚ) :=
  if kinqs.length = grads.length then
    some (e ++ grads.map (taskFunVal env primitive))
  else none

/-- The per-primitive loop of `TaskAvoidCollisionsSDF::update`, threading
`e_` and `J_`: FK failure or a checker failure returns `-2` (leaving the
partially built vectors), an empty gradient list fails the
`assert(gradients.size() > 0)`. -/
def updateLoop (env : SdfEnv) (rs : RobotState) (rootId : String) :
    List GeomPrim → List ℚ → MatQ → Option (Int × List ℚ × MatQ)
  | [], e, J => some (0, e, J)
  | p :: rest, e, J =>
    match primitiveForwardKinematics env rs p with
    | none => some (-2, e, J)
    | some kinqs =>
      match env.obstacleGradientBulk (kinqs.map KinQ.eeP) rootId with
      | none => some (-2, e, J)
      | some grads =>
        if grads.length = 0 then none
        else
          match appendTaskJacobian env kinqs grads J with
          | none => none
          | some J2 =>
            match appendTaskFunction env p kinqs grads e with
            | none => none
            | some e2 => updateLoop env rs rootId rest e2 J2

/-- Source `TaskAvoidCollisionsSDF::update`: resizes `e_` to 0 and `J_` to
0×numJoints, then processes every monitored primitive. -/
def update (env : SdfEnv) (rs : RobotState) (st : TaskDefinitionState) :
    Option (Int × TaskDefinitionState) :=
  (updateLoop env rs st.rootFrameId st.primitives [] ⟨rs.numJoints, []⟩).map
    fun r => (r.1, { st with e := r.2.1, J := r.2.2 })

/-- The processing of one primitive inside
`TaskAvoidCollisionsSDF::update`, when it contributes exactly one row:
forward kinematics, one bulk gradient query for its end-effector point,
one appended Jacobian row and one appended task-function entry. -/
def primStep (env : SdfEnv) (rs : RobotState) (rootId : String) (cols : ℕ)
    (p : GeomPrim) : Option (List ℚ × ℚ) :=
  match primitiveForwardKinematics env rs p with
  | some [kq] =>
    match env.obstacleGradientBulk [kq.eeP] rootId with
    | some [g] => (appendRow env cols kq g).map fun r => (r, taskFunVal env p g)
    | _ => none
  | _ => none

end TaskAvoidCollisionsSDF

namespace TDefGeometricProjection

/-- One row of the projection task Jacobian with the entries of
non-writable joints' columns zeroed, at column offset `j`. -/
def maskRowAux (rs : RobotState) : ℕ → List ℚ → List ℚ
  | _, [] => []
  | j, v :: rest =>
      (if j < rs.numJoints ∧ rs.writable j = false then 0 else v) ::
        maskRowAux rs (j + 1) rest

/-- Modelled from the spec: `TDefGeometricProjection::maskJacobian` is
only declared in this snapshot, with the documentation "This sets
jacobian columns corresponding to non-writable joints to 0"; the model
zeroes, in every row of the task Jacobian, the entries of columns whose
joints the robot state marks non-writable. -/
def maskJacobian (rs : RobotState) (J : MatQ) : MatQ :=
  ⟨J.cols, J.rows.map (maskRowAux rs 0)⟩

end TDefGeometricProjection

/-- The task-definition variants `Task::constructDefinition` can build;
the projection/alignment variants carry the primitive-type pair they
were instantiated with. -/
inductive DefKind where
  | fullPose
  | jntConfig
  | avoidCollisionsSDF
  | jntLimits
  | geomProj (t1 t2 : String)
  | geomAlign (t1 t2 : String)
deriving DecidableEq, Repr

/-- The task-dynamics variants `Task::constructDynamics` can build. -/
inductive DynKind where
  | firstOrder
  | jntLimits
  | minJerk
deriving DecidableEq, Repr

/-- Outcome of `Task::constructDefinition` / `Task::constructDynamics`:
`err` is the `-1` return on an unrecognized token or unsupported pair;
`crash` models an uncaught `std::out_of_range` from `std::vector::at`
when the parameter list is too short for the accesses performed. -/
inductive Construct (κ : Type) where
  | ok (k : κ)
  | err
  | crash
deriving DecidableEq, Repr

/-- The `(primitive type 1, primitive type 2)` pairs supported by
`TDefGeomProj`, in source order. -/
def projPairs : List (String × String) :=
  [("point", "point"), ("point", "line"), ("point", "plane"),
   ("point", "box"), ("point", "cylinder"), ("point", "sphere"),
   ("line", "line"), ("sphere", "plane"), ("sphere", "sphere"),
   ("frame", "frame")]

/-- The pairs supported by `TDefGeomAlign`, in source order. -/
def alignPairs : List (String × String) :=
  [("line", "line"), ("line", "plane"), ("line", "cylinder"),
   ("line", "sphere"), ("frame", "frame")]

/-- Source `Task::constructDefinition`: dispatch on the first token; for
`TDefGeomProj`/`TDefGeomAlign` also on the primitive-type pair at
positions 1 and 2 (accessed with `std::vector::at`, hence `crash` when
absent). -/
def constructDefinition (def_params : List String) : Construct DefKind :=
  match def_params with
  | [] => .crash
  | ty :: rest =>
    if ty = "TDefFullPose" then .ok .fullPose
    else if ty = "TDefJntConfig" then .ok .jntConfig
    else if ty = "TDefAvoidCollisionsSDF" then .ok .avoidCollisionsSDF
    else if ty = "TDefJntLimits" then .ok .jntLimits
    else if ty = "TDefGeomProj" then
      match rest with
      | t1 :: t2 :: _ =>
        if (t1, t2) ∈ projPairs then .ok (.geomProj t1 t2) else .err
      | _ => .crash
    else if ty = "TDefGeomAlign" then
      match rest with
      | t1 :: t2 :: _ =>
        if (t1, t2) ∈ alignPairs then .ok (.geomAlign t1 t2) else .err
      | _ => .crash
    else .err

/-- Source `Task::constructDynamics`: dispatch on the first token. -/
def constructDynamics (dyn_params : List String) : Construct DynKind :=
  match dyn_params with
  | [] => .crash
  | ty :: _ =>
    if ty = "TDynFirstOrder" then .ok .firstOrder
    else if ty = "TDynJntLimits" then .ok .jntLimits
    else if ty = "TDynMinJerk" then .ok .minJerk
    else .err

/-- The definition type names recognized by `Task::constructDefinition`. -/
def defTypeNames : List String :=
  ["TDefFullPose", "TDefJntConfig", "TDefAvoidCollisionsSDF",
   "TDefJntLimits", "TDefGeomProj", "TDefGeomAlign"]

/-- The dynamics type names recognized by `Task::constructDynamics`. -/
def dynTypeNames : List String :=
  ["TDynFirstOrder", "TDynJntLimits", "TDynMinJerk"]

/-- Virtual interface of a constructed `TaskDefinition`: `initialize` and
`update` from the source, plus the base-class accessors
`getInitialValue`/`getFinalValue` (bodies outside this snapshot), whose
results are only forwarded to the dynamics' `init`. -/
structure DefImpl where
  initFn : List String → RobotState → TaskDefinitionState →
    Int × TaskDefinitionState
  updateFn : RobotState → TaskDefinitionState →
    Option (Int × TaskDefinitionState)
  getInitialValue : TaskDefinitionState → List ℚ
  getFinalValue : RobotState → TaskDefinitionState → List ℚ

/-- Virtual interface of a constructed `TaskDynamics`: `init` receives
the parameters, robot state and the definition's initial/final values;
`update` receives the definition's current `e` and `J`. -/
structure DynImpl where
  initFn : List String → RobotState → List ℚ → List ℚ → TaskDynamicsState →
    Int × TaskDynamicsState
  updateFn : RobotState → List ℚ → MatQ → TaskDynamicsState →
    Option (Int × TaskDynamicsState)

/-- The dispatch table mapping each constructed variant to its behavior
(the virtual-function table of the derived classes). -/
structure TaskEnv where
  defImpl : DefKind → DefImpl
  dynImpl : DynKind → DynImpl

/-- The `Task` object: attributes plus the owned definition and dynamics
sub-objects, `none` before construction (null `shared_ptr`s). -/
structure Task where
  taskName : String := ""
  priority : ℕ := 0
  active : Bool := true
  visible : Bool := true
  def_ : Option (DefKind × TaskDefinitionState) := none
  dyn_ : Option (DynKind × TaskDynamicsState) := none
deriving DecidableEq, Repr

namespace Task

/-- Source `Task::init`: rejects empty parameter lists (`-1`/`-2`), constructs
the definition (`-3` on dispatch failure) and the dynamics (`-4`), then
runs `def_->initialize` (`-5` on failure) and `dyn_->init` (`-6`).  The
final consistency check of the source is commented out (flagged there
with `\bug Should enable consistench check - disabled now because the
sdf - avoidance task ain't working with it`), so no `checkConsistency`
call appears here.  The propagation of name/priority/active/visible into
the sub-objects touches no field this model tracks. -/
def init (tenv : TaskEnv) (t : Task) (def_params dyn_params : List String)
    (rs : RobotState) : Option (Int × Task) :=
  if def_params.length = 0 then some (-1, t)
  else if dyn_params.length = 0 then some (-2, t)
  else
    match constructDefinition def_params with
    | .crash => none
    | .err => some (-3, t)
    | .ok dk =>
      let t1 : Task := { t with def_ := some (dk, {}) }
      match constructDynamics dyn_params with
      | .crash => none
      | .err => some (-4, t1)
      | .ok yk =>
        let t2 : Task := { t1 with dyn_ := some (yk, {}) }
        let di := tenv.defImpl dk
        let r1 := di.initFn def_params rs {}
        if r1.1 ≠ 0 then some (-5, { t2 with def_ := some (dk, r1.2) })
        else
          let t3 : Task := { t2 with def_ := some (dk, r1.2) }
          let r2 := (tenv.dynImpl yk).initFn dyn_params rs
            (di.getInitialValue r1.2) (di.getFinalValue rs r1.2) {}
          if r2.1 ≠ 0 then some (-6, { t3 with dyn_ := some (yk, r2.2) })
          else some (0, { t3 with dyn_ := some (yk, r2.2) })

/-- Source `Task::update`: returns `-2` when a sub-object is missing, otherwise
`def_->update` then `dyn_->update(e_, J_)` in sequence, `-2` on either
failure.  Note that the source performs no check of the `active` flag
here. -/
def update (tenv : TaskEnv) (t : Task) (rs : RobotState) :
    Option (Int × Task) :=
  match t.def_, t.dyn_ with
  | none, _ => some (-2, t)
  | some _, none => some (-2, t)
  | some (dk, d), some (yk, y) =>
    match (tenv.defImpl dk).updateFn rs d with
    | none => none
    | some (c1, d2) =>
      let t1 : Task := { t with def_ := some (dk, d2) }
      if c1 ≠ 0 then some (-2, t1)
      else
        match (tenv.dynImpl yk).updateFn rs d2.e d2.J y with
        | none => none
        | some (c2, y2) =>
          let t2 : Task := { t1 with dyn_ := some (yk, y2) }
          if c2 ≠ 0 then some (-2, t2) else some (0, t2)

/-- Source `Task::checkConsistency`: the sub-objects exist, `e_`, `task_types_`
and `e_dot_star_` all have as many entries as `J_` has rows, and `J_`
has one column per robot joint. -/
def checkConsistency (t : Task) (rs : RobotState) : Bool :=
  match t.def_, t.dyn_ with
  | none, _ => false
  | some _, none => false
  | some (_, d), some (_, y) =>
    decide (d.e.length = d.J.rows.length) &&
    decide (d.taskTypes.length = d.J.rows.length) &&
    decide (y.eDotStar.length = d.J.rows.length) &&
    decide (d.J.cols = rs.numJoints)

end Task

/-- The `TaskAvoidCollisionsSDF` definition plugged into the `Task`
dispatch table; `giv`/`gfv` stand for the base-class accessors
`getInitialValue`/`getFinalValue`, whose bodies are outside this
snapshot. -/
def sdfDefImpl (env : SdfEnv) (gpm : GeometricPrimitiveMap)
    (giv : TaskDefinitionState → List ℚ)
    (gfv : RobotState → TaskDefinitionState → List ℚ) : DefImpl where
  initFn := fun params rs st => TaskAvoidCollisionsSDF.init gpm rs params st
  updateFn := fun rs st => TaskAvoidCollisionsSDF.update env rs st
  getInitialValue := giv
  getFinalValue := gfv

/-! Concrete sample data used to evaluate the theorems on closed
inputs. -/

/-- Sample robot: two joints, only joint 0 writable, one link
`"link1"`. -/
def rsSample : RobotState where
  numJoints := 2
  writable := fun i => i == 0
  qnrFromLinkName := fun s => if s = "link1" then 0 else -1
  rootName := "root"

def pointSample : GeometricPoint :=
  { name := "p1", frameId := "link1", kdl_p := Vec3.zero,
    eigen_p := Vec3.zero }

def gpmSample : GeometricPrimitiveMap := [("p1", .point pointSample)]

def frameSample : Frame := { M := Mat3.diag 1 1 1, p := Vec3.zero }

def jacSample : List Twist :=
  [⟨⟨1, 0, 0⟩, Vec3.zero⟩, ⟨⟨0, 1, 0⟩, Vec3.zero⟩]

/-- Sample external environment whose gradients are all valid. -/
def envValid : SdfEnv where
  jntToCart := fun _ => some frameSample
  jntToJac := fun _ => some jacSample
  obstacleGradientBulk := fun pts _ => some (pts.map fun _ => ⟨1, 0, 0⟩)
  isValid := fun _ => true
  sqrtFn := id

/-- Sample external environment that reports every gradient invalid. -/
def envInvalid : SdfEnv where
  jntToCart := fun _ => some frameSample
  jntToJac := fun _ => some jacSample
  obstacleGradientBulk := fun pts _ => some (pts.map fun _ => Vec3.zero)
  isValid := fun _ => false
  sqrtFn := id

/-- Sample Eigen conversion routines. -/
def extSample : EigenExt where
  eulerXYZToQuat := fun _ _ _ => ⟨1, 0, 0, 0⟩
  quatToRotKDL := fun _ => Mat3.diag 1 1 1

/-- A definition implementation that always succeeds and changes
nothing. -/
def trivialDefImpl : DefImpl where
  initFn := fun _ _ st => (0, st)
  updateFn := fun _ st => some (0, st)
  getInitialValue := fun st => st.e
  getFinalValue := fun _ st => st.e

/-- A definition implementation whose `update` always fails. -/
def failingDefImpl : DefImpl where
  initFn := fun _ _ st => (0, st)
  updateFn := fun _ st => some (1, st)
  getInitialValue := fun st => st.e
  getFinalValue := fun _ st => st.e

/-- A dynamics implementation that always succeeds and changes
nothing. -/
def trivialDynImpl : DynImpl where
  initFn := fun _ _ _ _ y => (0, y)
  updateFn := fun _ _ _ y => some (0, y)

/-- Task environment backing every definition slot with the SDF
avoidance definition over the sample registry and `envValid`, and every
dynamics slot with `dimp`. -/
def tenvSDF (dimp : DynImpl) : TaskEnv where
  defImpl := fun _ =>
    sdfDefImpl envValid gpmSample (fun st => st.e) (fun _ st => st.e)
  dynImpl := fun _ => dimp

/-- Task environment whose definitions' `update` always fails. -/
def tenvFail : TaskEnv where
  defImpl := fun _ => failingDefImpl
  dynImpl := fun _ => trivialDynImpl

/-- An inactive task with both sub-objects present. -/
def inactiveTask : Task :=
  { active := false, def_ := some (.fullPose, {}),
    dyn_ := some (.firstOrder, {}) }

/-- The definition state of the sample SDF task right after its `init`:
one monitored point primitive, one GEQ row, `e_`/`J_` untouched. -/
def sdfStSample : TaskDefinitionState :=
  { taskTypes := [1], primitives := [.point pointSample],
    nDimensions := 1, rootFrameId := "root" }

/-! Claim theorems. -/

/-- C8: `GeometricPoint::init` fails exactly when the parameter count is
not 3, `GeometricBox::init` exactly when it is not 6, 9 or 10, and on
such a failure the primitive's previously initialized state is left
unchanged. -/
theorem c8_primitive_arity_check (parameters : List ℚ) (st : GeometricPoint)
    (bst : GeometricBox) (ext : EigenExt) :
    ((GeometricPoint.init parameters st).1 ≠ 0 ↔ parameters.length ≠ 3) ∧
    ((GeometricPoint.init parameters st).1 ≠ 0 →
      (GeometricPoint.init parameters st).2 = st) ∧
    ((GeometricBox.init ext parameters bst).1 ≠ 0 ↔
      ¬(parameters.length = 6 ∨ parameters.length = 9 ∨
        parameters.length = 10)) ∧
    ((GeometricBox.init ext parameters bst).1 ≠ 0 →
      (GeometricBox.init ext parameters bst).2 = bst) := by
  refine ⟨?_, ?_, ?_, ?_⟩
  · match parameters with
    | [] => simp [GeometricPoint.init]
    | [a] => simp [GeometricPoint.init]
    | [a, b] => simp [GeometricPoint.init]
    | [a, b, c] => simp [GeometricPoint.init]
    | a :: b :: c :: d :: rest =>
      simp only [GeometricPoint.init, List.length_cons]
      constructor
      · intro _; omega
      · intro _; decide
  · match parameters with
    | [] => intro _; rfl
    | [a] => intro _; rfl
    | [a, b] => intro _; rfl
    | [a, b, c] => intro h; exact absurd rfl h
    | a :: b :: c :: d :: rest => intro _; rfl
  · by_cases h : parameters.length ≠ 6 ∧ parameters.length ≠ 9 ∧
      parameters.length ≠ 10
    · simp only [GeometricBox.init, if_pos h]
      constructor
      · intro _; omega
      · intro _; decide
    · simp only [GeometricBox.init, if_neg h]
      simp only [ne_eq, not_true_eq_false, false_iff, not_not]
      omega
  · by_cases h : parameters.length ≠ 6 ∧ parameters.length ≠ 9 ∧
      parameters.length ≠ 10
    · intro _; simp only [GeometricBox.init, if_pos h]
    · intro hc; exact absurd (by simp only [GeometricBox.init, if_neg h]) hc

/-- Witness for C8 at concrete inputs: two parameters are rejected by
both primitive types, with the prior state preserved. -/
theorem c8_primitive_arity_check_witness :
    ((GeometricPoint.init [1, 2] pointSample).1 ≠ 0 ↔
      ([1, 2] : List ℚ).length ≠ 3) ∧
    ((GeometricPoint.init [1, 2] pointSample).1 ≠ 0 →
      (GeometricPoint.init [1, 2] pointSample).2 = pointSample) ∧
    ((GeometricBox.init extSample [1, 2] {}).1 ≠ 0 ↔
      ¬(([1, 2] : List ℚ).length = 6 ∨ ([1, 2] : List ℚ).length = 9 ∨
        ([1, 2] : List ℚ).length = 10)) ∧
    ((GeometricBox.init extSample [1, 2] {}).1 ≠ 0 →
      (GeometricBox.init extSample [1, 2] {}).2 = {}) :=
  c8_primitive_arity_check [1, 2] pointSample {} extSample

/-- C9: round-trip — `GeometricPoint::init [x,y,z]` succeeds and the
accessors return exactly `x`, `y`, `z`; `GeometricBox::init` with any
documented valid arity succeeds and the center and dimension accessors
return the first six parameters. -/
theorem c9_primitive_roundtrip (x y z : ℚ) (st : GeometricPoint)
    (bst : GeometricBox) (ext : EigenExt) (parameters : List ℚ)
    (hlen : parameters.length = 6 ∨ parameters.length = 9 ∨
      parameters.length = 10) :
    ((GeometricPoint.init [x, y, z] st).1 = 0 ∧
      (GeometricPoint.init [x, y, z] st).2.getX = x ∧
      (GeometricPoint.init [x, y, z] st).2.getY = y ∧
      (GeometricPoint.init [x, y, z] st).2.getZ = z) ∧
    ((GeometricBox.init ext parameters bst).1 = 0 ∧
      (GeometricBox.init ext parameters bst).2.getCenterX =
        parameters.getD 0 0 ∧
      (GeometricBox.init ext parameters bst).2.getCenterY =
        parameters.getD 1 0 ∧
      (GeometricBox.init ext parameters bst).2.getCenterZ =
        parameters.getD 2 0 ∧
      (GeometricBox.init ext parameters bst).2.getDimX =
        parameters.getD 3 0 ∧
      (GeometricBox.init ext parameters bst).2.getDimY =
        parameters.getD 4 0 ∧
      (GeometricBox.init ext parameters bst).2.getDimZ =
        parameters.getD 5 0) := by
  have h : ¬(parameters.length ≠ 6 ∧ parameters.length ≠ 9 ∧
      parameters.length ≠ 10) := by omega
  refine ⟨⟨rfl, rfl, rfl, rfl⟩, ?_⟩
  simp only [GeometricBox.init, if_neg h]
  and_intros <;> trivial

/-- Witness for C9 at concrete inputs. -/
theorem c9_primitive_roundtrip_witness :
    ((GeometricPoint.init [1, 2, 3] pointSample).1 = 0 ∧
      (GeometricPoint.init [1, 2, 3] pointSample).2.getX = 1 ∧
      (GeometricPoint.init [1, 2, 3] pointSample).2.getY = 2 ∧
      (GeometricPoint.init [1, 2, 3] pointSample).2.getZ = 3) ∧
    ((GeometricBox.init extSample [1, 2, 3, 4, 5, 6] {}).1 = 0 ∧
      (GeometricBox.init extSample [1, 2, 3, 4, 5, 6] {}).2.getCenterX =
        ([1, 2, 3, 4, 5, 6] : List ℚ).getD 0 0 ∧
      (GeometricBox.init extSample [1, 2, 3, 4, 5, 6] {}).2.getCenterY =
        ([1, 2, 3, 4, 5, 6] : List ℚ).getD 1 0 ∧
      (GeometricBox.init extSample [1, 2, 3, 4, 5, 6] {}).2.getCenterZ =
        ([1, 2, 3, 4, 5, 6] : List ℚ).getD 2 0 ∧
      (GeometricBox.init extSample [1, 2, 3, 4, 5, 6] {}).2.getDimX =
        ([1, 2, 3, 4, 5, 6] : List ℚ).getD 3 0 ∧
      (GeometricBox.init extSample [1, 2, 3, 4, 5, 6] {}).2.getDimY =
        ([1, 2, 3, 4, 5, 6] : List ℚ).getD 4 0 ∧
      (GeometricBox.init extSample [1, 2, 3, 4, 5, 6] {}).2.getDimZ =
        ([1, 2, 3, 4, 5, 6] : List ℚ).getD 5 0) :=
  c9_primitive_roundtrip 1 2 3 pointSample {} extSample [1, 2, 3, 4, 5, 6]
    (Or.inl rfl)

open TaskAvoidCollisionsSDF in
/-- The name-resolution loop of `TaskAvoidCollisionsSDF::init` succeeds
iff every listed name is good, fails only with `-2`, and adds one
dimension per accepted name. -/
theorem initLoop_spec (gpm : GeometricPrimitiveMap) (rs : RobotState) :
    ∀ (names : List String) (st : TaskDefinitionState),
      ((initLoop gpm rs names st).1 = 0 ↔
        ∀ nm ∈ names, goodNameB gpm rs nm = true) ∧
      ((initLoop gpm rs names st).1 ≠ 0 →
        (initLoop gpm rs names st).1 = -2) ∧
      ((initLoop gpm rs names st).1 = 0 →
        (initLoop gpm rs names st).2.nDimensions =
          st.nDimensions + names.length) := by
  intro names
  induction names with
  | nil => intro st; refine ⟨?_, ?_, ?_⟩ <;> simp [initLoop]
  | cons nm rest ih =>
    intro st
    cases hl : gpm.lookup nm with
    | none => simp [initLoop, hl, goodNameB]
    | some p =>
      cases p with
      | point pt =>
        by_cases hq : rs.qnrFromLinkName pt.frameId = -1
        · simp [initLoop, hl, hq, goodNameB]
        · obtain ⟨ih1, ih2, ih3⟩ := ih
            { st with primitives := st.primitives ++ [.point pt],
                      nDimensions := st.nDimensions + 1 }
          simp only [initLoop, hl, if_neg hq]
          refine ⟨?_, ih2, ?_⟩
          · rw [ih1]
            simp [goodNameB, hl, hq]
          · intro h0
            rw [ih3 h0]
            simp
            omega
      | sphere s =>
        by_cases hq : rs.qnrFromLinkName s.frameId = -1
        · simp [initLoop, hl, hq, goodNameB]
        · obtain ⟨ih1, ih2, ih3⟩ := ih
            { st with primitives := st.primitives ++ [.sphere s],
                      nDimensions := st.nDimensions + 1 }
          simp only [initLoop, hl, if_neg hq]
          refine ⟨?_, ih2, ?_⟩
          · rw [ih1]
            simp [goodNameB, hl, hq]
          · intro h0
            rw [ih3 h0]
            simp
            omega
      | other ty f n => simp [initLoop, hl, goodNameB]

/-- C10: `TaskAvoidCollisionsSDF::init` fails with a negative code when
fewer than 2 parameters are given; with at least 2 parameters it
succeeds iff every listed name resolves to an existing point or sphere
primitive whose reference frame is a link of the kinematic tree (any
other failure is the negative code `-2`); on success exactly one task
dimension is added per listed primitive. -/
theorem c10_sdf_init_validation (gpm : GeometricPrimitiveMap)
    (rs : RobotState) (parameters : List String)
    (st : TaskDefinitionState) :
    (parameters.length < 2 →
      TaskAvoidCollisionsSDF.init gpm rs parameters st = (-2, st) ∧
      (-2 : Int) < 0) ∧
    (2 ≤ parameters.length →
      (((TaskAvoidCollisionsSDF.init gpm rs parameters st).1 = 0 ↔
        ∀ nm ∈ parameters.tail,
          TaskAvoidCollisionsSDF.goodNameB gpm rs nm = true) ∧
       ((TaskAvoidCollisionsSDF.init gpm rs parameters st).1 ≠ 0 →
        (TaskAvoidCollisionsSDF.init gpm rs parameters st).1 = -2) ∧
       ((TaskAvoidCollisionsSDF.init gpm rs parameters st).1 = 0 →
        (TaskAvoidCollisionsSDF.init gpm rs parameters st).2.nDimensions =
          parameters.length - 1 ∧
        (TaskAvoidCollisionsSDF.init gpm rs parameters st).2.taskTypes.length
          = parameters.length - 1))) := by
  constructor
  · intro hlt
    exact ⟨by simp [TaskAvoidCollisionsSDF.init, hlt], by norm_num⟩
  · intro hge
    have hlt : ¬parameters.length < 2 := by omega
    obtain ⟨h1, h2, h3⟩ := initLoop_spec gpm rs parameters.tail
      (TaskAvoidCollisionsSDF.reset st)
    have htail : parameters.tail.length = parameters.length - 1 :=
      List.length_tail parameters
    simp only [TaskAvoidCollisionsSDF.init, if_neg hlt]
    split
    · next st2 heq =>
      have h0 : (TaskAvoidCollisionsSDF.initLoop gpm rs parameters.tail
          (TaskAvoidCollisionsSDF.reset st)).1 = 0 := by rw [heq]
      refine ⟨?_, ?_, ?_⟩
      · simpa using h1.mp h0
      · intro hne; exact absurd rfl hne
      · intro _
        have := h3 h0
        rw [heq] at this
        simp only [TaskAvoidCollisionsSDF.reset] at this
        constructor
        · simp [this, htail]
        · simp only [List.length_replicate]
          simp [this, htail]
    · next c st2 hne heq =>
      have hc0 : c ≠ 0 := by
        intro h
        exact hne (h ▸ rfl)
      refine ⟨?_, ?_, ?_⟩
      · constructor
        · intro h; exact absurd h hc0
        · intro hall
          have h0 := h1.mpr (by simpa using hall)
          rw [heq] at h0
          exact absurd h0 hc0
      · intro _
        have := h2 (by rw [heq]; exact hc0)
        rw [heq] at this
        exact this
      · intro h; exact absurd h hc0

/-- Witness for C10: the sample registry and robot accept the listed
point `"p1"`, and a one-parameter call fails. -/
theorem c10_sdf_init_validation_witness :
    ((["TDefAvoidCollisionsSDF"] : List String).length < 2 →
      TaskAvoidCollisionsSDF.init gpmSample rsSample
        ["TDefAvoidCollisionsSDF"] {} = (-2, ({} : TaskDefinitionState)) ∧
      (-2 : Int) < 0) ∧
    (2 ≤ (["TDefAvoidCollisionsSDF"] : List String).length →
      (((TaskAvoidCollisionsSDF.init gpmSample rsSample
          ["TDefAvoidCollisionsSDF"] {}).1 = 0 ↔
        ∀ nm ∈ (["TDefAvoidCollisionsSDF"] : List String).tail,
          TaskAvoidCollisionsSDF.goodNameB gpmSample rsSample nm = true) ∧
       ((TaskAvoidCollisionsSDF.init gpmSample rsSample
          ["TDefAvoidCollisionsSDF"] {}).1 ≠ 0 →
        (TaskAvoidCollisionsSDF.init gpmSample rsSample
          ["TDefAvoidCollisionsSDF"] {}).1 = -2) ∧
       ((TaskAvoidCollisionsSDF.init gpmSample rsSample
          ["TDefAvoidCollisionsSDF"] {}).1 = 0 →
        (TaskAvoidCollisionsSDF.init gpmSample rsSample
          ["TDefAvoidCollisionsSDF"] {}).2.nDimensions =
          (["TDefAvoidCollisionsSDF"] : List String).length - 1 ∧
        (TaskAvoidCollisionsSDF.init gpmSample rsSample
          ["TDefAvoidCollisionsSDF"] {}).2.taskTypes.length =
          (["TDefAvoidCollisionsSDF"] : List String).length - 1))) :=
  c10_sdf_init_validation gpmSample rsSample ["TDefAvoidCollisionsSDF"] {}

/-- C1 (code bug): on the concrete SDF avoidance task over the sample
registry, `Task::init` returns success (code 0) although
`Task::checkConsistency` is false for the resulting task — the SDF
definition's `init` never sizes `e_`/`J_` while it fills `task_types_`,
and the consistency check after initialization is commented out in
`Task::init` (flagged there with a `\bug` note). -/
theorem c1_sdf_task_init_skips_consistency_check :
    (Task.init (tenvSDF trivialDynImpl) {} ["TDefAvoidCollisionsSDF", "p1"]
        ["TDynFirstOrder"] rsSample).map
      (fun r => (r.1, Task.checkConsistency r.2 rsSample)) =
      some (0, false) := by
  rfl

/-- C5 counterexample: an inactive task whose definition update fails —
`Task::update` performs no check of the `active` flag, so the call on an
inactive task is not a no-op success (it returns `-2`, after calling the
definition's update). -/
theorem c5_update_ignores_active_flag_cex :
    inactiveTask.active = false ∧
    (Task.update tenvFail inactiveTask rsSample).map Prod.fst =
      some (-2) :=
  ⟨rfl, rfl⟩

/-- C5 amended: `Task::update` ignores the `active` flag (the
inactive-task skip lives in the manager's loop, not here): it returns
`-2` when either sub-object is missing; otherwise it calls
`Definition.update` then `Dynamics.update` in sequence, a failure of
either short-circuits with `-2` (the dynamics is not called when the
definition fails), and success returns `0`; there is no retry. -/
theorem c5_update_sequencing (tenv : TaskEnv) (t : Task) (rs : RobotState) :
    (t.def_ = none ∨ t.dyn_ = none →
      Task.update tenv t rs = some (-2, t)) ∧
    (∀ dk d yk y, t.def_ = some (dk, d) → t.dyn_ = some (yk, y) →
      ((tenv.defImpl dk).updateFn rs d = none →
        Task.update tenv t rs = none) ∧
      (∀ c1 d2, (tenv.defImpl dk).updateFn rs d = some (c1, d2) →
        (c1 ≠ 0 → Task.update tenv t rs =
          some (-2, { t with def_ := some (dk, d2) })) ∧
        (c1 = 0 → ∀ c2 y2,
          (tenv.dynImpl yk).updateFn rs d2.e d2.J y = some (c2, y2) →
          Task.update tenv t rs =
            some (if c2 = 0 then 0 else -2,
              { t with def_ := some (dk, d2),
                       dyn_ := some (yk, y2) })))) := by
  constructor
  · rintro (h | h)
    · simp [Task.update, h]
    · cases hd : t.def_ with
      | none => simp [Task.update, hd]
      | some v => simp [Task.update, hd, h]
  · intro dk d yk y hdef hdyn
    constructor
    · intro hu
      simp [Task.update, hdef, hdyn, hu]
    · intro c1 d2 hu
      constructor
      · intro hc1
        simp [Task.update, hdef, hdyn, hu, hc1]
      · intro hc1 c2 y2 hy
        subst hc1
        by_cases h2 : c2 = 0 <;>
          simp [Task.update, hdef, hdyn, hu, hy, h2]

/-- Witness for the amended C5: the all-failing sample environment gives
`-2` on the inactive sample task, the definition update having run. -/
theorem c5_update_sequencing_witness :
    Task.update tenvFail inactiveTask rsSample =
      some (-2, { inactiveTask with def_ := some (.fullPose, {}) }) :=
  (((c5_update_sequencing tenvFail inactiveTask rsSample).2 .fullPose {}
      .firstOrder {} rfl rfl).2 1 {} rfl).1 (by decide)

/-- C6 counterexample: when both lists are empty, `Task::init` returns
`-1` — the code for empty definition parameters — not the distinct code
`-2` reserved for empty dynamics parameters, although `dyn_params` is
empty. -/
theorem c6_empty_params_cex :
    (Task.init tenvFail {} [] [] rsSample).map Prod.fst = some (-1) ∧
    (Task.init tenvFail {} ["TDefFullPose"] [] rsSample).map Prod.fst =
      some (-2) ∧
    ((-1 : Int) ≠ -2) :=
  ⟨rfl, rfl, by decide⟩

/-- C6 amended: empty `def_params` fails with `-1` and constructs
nothing; empty `dyn_params` with non-empty `def_params` fails with the
distinct code `-2` and constructs nothing (when both are empty the
`def_params` check fires first and `-1` is returned). -/
theorem c6_empty_params_codes (tenv : TaskEnv) (t : Task)
    (def_params dyn_params : List String) (rs : RobotState) :
    (def_params = [] →
      Task.init tenv t def_params dyn_params rs = some (-1, t)) ∧
    (def_params ≠ [] → dyn_params = [] →
      Task.init tenv t def_params dyn_params rs = some (-2, t)) := by
  constructor
  · intro h
    subst h
    simp [Task.init]
  · intro h1 h2
    subst h2
    have hne : def_params.length ≠ 0 := by
      simpa [List.length_eq_zero] using h1
    simp [Task.init, hne]

/-- Witness for the amended C6 at concrete inputs. -/
theorem c6_empty_params_codes_witness :
    Task.init tenvFail {} [] ["TDynFirstOrder"] rsSample =
      some (-1, ({} : Task)) ∧
    Task.init tenvFail {} ["TDefFullPose"] [] rsSample =
      some (-2, ({} : Task)) :=
  ⟨(c6_empty_params_codes tenvFail {} [] ["TDynFirstOrder"] rsSample).1 rfl,
   (c6_empty_params_codes tenvFail {} ["TDefFullPose"] [] rsSample).2
     (by decide) rfl⟩

/-- C7 counterexample: both first tokens are recognized and no
projection/alignment pair is involved, yet `Task::init` fails with a
negative code (`-5`) because the recognized SDF definition's own
`initialize` rejects the single-entry parameter list — so the token
conditions are not the exact failure condition of `Task::init`. -/
theorem c7_recognized_tokens_init_failure_cex :
    constructDefinition ["TDefAvoidCollisionsSDF"] =
      Construct.ok DefKind.avoidCollisionsSDF ∧
    constructDynamics ["TDynFirstOrder"] = Construct.ok DynKind.firstOrder ∧
    (Task.init (tenvSDF trivialDynImpl) {} ["TDefAvoidCollisionsSDF"]
        ["TDynFirstOrder"] rsSample).map Prod.fst = some (-5) :=
  ⟨rfl, rfl, rfl⟩

/-- C7 amended: the construction dispatch fails exactly when the first
token of `def_params` is unrecognized or a present
projection/alignment primitive-type pair is unsupported (resp. the first
token of `dyn_params` is unrecognized), and such dispatch failures make
`Task::init` fail with `-3` resp. `-4`; `Task::init` can additionally
fail when a recognized variant's own initialization fails. -/
theorem c7_dispatch_err_iff :
    (∀ (ty : String) (rest : List String),
      constructDefinition (ty :: rest) = Construct.err ↔
        ty ∉ defTypeNames ∨
        (ty = "TDefGeomProj" ∧ 2 ≤ rest.length ∧
          (rest.getD 0 "", rest.getD 1 "") ∉ projPairs) ∨
        (ty = "TDefGeomAlign" ∧ 2 ≤ rest.length ∧
          (rest.getD 0 "", rest.getD 1 "") ∉ alignPairs)) ∧
    (∀ (ty : String) (rest : List String),
      constructDynamics (ty :: rest) = Construct.err ↔
        ty ∉ dynTypeNames) ∧
    (∀ (tenv : TaskEnv) (t : Task) (rs : RobotState)
        (def_params dyn_params : List String),
      def_params.length ≠ 0 → dyn_params.length ≠ 0 →
      constructDefinition def_params = Construct.err →
      Task.init tenv t def_params dyn_params rs = some (-3, t)) ∧
    (∀ (tenv : TaskEnv) (t : Task) (rs : RobotState)
        (def_params dyn_params : List String) (dk : DefKind),
      def_params.length ≠ 0 → dyn_params.length ≠ 0 →
      constructDefinition def_params = Construct.ok dk →
      constructDynamics dyn_params = Construct.err →
      Task.init tenv t def_params dyn_params rs =
        some (-4, { t with def_ := some (dk, {}) })) := by
  refine ⟨?_, ?_, ?_, ?_⟩
  · intro ty rest
    by_cases h1 : ty = "TDefFullPose"
    · subst h1; simp +decide [constructDefinition, defTypeNames]
    · by_cases h2 : ty = "TDefJntConfig"
      · subst h2; simp +decide [constructDefinition, defTypeNames]
      · by_cases h3 : ty = "TDefAvoidCollisionsSDF"
        · subst h3; simp +decide [constructDefinition, defTypeNames]
        · by_cases h4 : ty = "TDefJntLimits"
          · subst h4; simp +decide [constructDefinition, defTypeNames]
          · by_cases h5 : ty = "TDefGeomProj"
            · subst h5
              match rest with
              | [] => simp +decide [constructDefinition, defTypeNames]
              | [t1] => simp +decide [constructDefinition, defTypeNames]
              | t1 :: t2 :: r =>
                by_cases hp : (t1, t2) ∈ projPairs
                · simp +decide [constructDefinition, defTypeNames, hp]
                · simp +decide [constructDefinition, defTypeNames, hp]
            · by_cases h6 : ty = "TDefGeomAlign"
              · subst h6
                match rest with
                | [] => simp +decide [constructDefinition, defTypeNames]
                | [t1] => simp +decide [constructDefinition, defTypeNames]
                | t1 :: t2 :: r =>
                  by_cases hp : (t1, t2) ∈ alignPairs
                  · simp +decide [constructDefinition, defTypeNames, hp]
                  · simp +decide [constructDefinition, defTypeNames, hp]
              · simp [constructDefinition, defTypeNames,
                  h1, h2, h3, h4, h5, h6]
  · intro ty rest
    by_cases h1 : ty = "TDynFirstOrder"
    · subst h1; simp +decide [constructDynamics, dynTypeNames]
    · by_cases h2 : ty = "TDynJntLimits"
      · subst h2; simp +decide [constructDynamics, dynTypeNames]
      · by_cases h3 : ty = "TDynMinJerk"
        · subst h3; simp +decide [constructDynamics, dynTypeNames]
        · simp [constructDynamics, dynTypeNames, h1, h2, h3]
  · intro tenv t rs def_params dyn_params hne1 hne2 herr
    simp [Task.init, hne1, hne2, herr]
  · intro tenv t rs def_params dyn_params dk hne1 hne2 hok herr
    simp [Task.init, hne1, hne2, hok, herr]

/-! Helper lemmas about list indexing and the SDF update loop. -/

theorem getD_map_of_lt {α β : Type} (f : α → β) (l : List α) (i : ℕ) (d : β)
    (h : i < l.length) : (l.map f).getD i d = f l[i] := by
  rw [List.getD_eq_getElem _ _ (by simpa using h), List.getElem_map]

theorem getD_range_map {α : Type} (f : ℕ → α) (n i : ℕ) (d : α) (h : i < n) :
    ((List.range n).map f).getD i d = f i := by
  rw [getD_map_of_lt f _ i d (by simpa using h), List.getElem_range]

theorem getD_replicate_zero (n i : ℕ) :
    (List.replicate n (0 : ℚ)).getD i 0 = 0 := by
  by_cases h : i < n
  · rw [List.getD_eq_getElem _ _ (by simpa using h)]
    simp
  · exact List.getD_eq_default _ _ (by simp; omega)

theorem maskColumnsAux_getD_zero (rs : RobotState) :
    ∀ (l : List Twist) (k j : ℕ), k + j < rs.numJoints →
      rs.writable (k + j) = false →
      (TaskAvoidCollisionsSDF.maskColumnsAux rs k l).getD j Twist.zero =
        Twist.zero := by
  intro l
  induction l with
  | nil =>
    intro k j _ _
    exact List.getD_eq_default _ _ (by simp [TaskAvoidCollisionsSDF.maskColumnsAux])
  | cons c rest ih =>
    intro k j hj hw
    cases j with
    | zero =>
      have hc : k < rs.numJoints := by omega
      have hw0 : rs.writable k = false := by simpa using hw
      simp [TaskAvoidCollisionsSDF.maskColumnsAux, hc, hw0]
    | succ j2 =>
      have h1 : k + 1 + j2 < rs.numJoints := by omega
      have h2 : rs.writable (k + 1 + j2) = false := by
        have he : k + 1 + j2 = k + (j2 + 1) := by omega
        rw [he]; exact hw
      simpa [TaskAvoidCollisionsSDF.maskColumnsAux, List.getD_cons_succ] using
        ih (k + 1) j2 h1 h2

theorem maskRowAux_getD_zero (rs : RobotState) :
    ∀ (l : List ℚ) (k j : ℕ), k + j < rs.numJoints →
      rs.writable (k + j) = false →
      (TDefGeometricProjection.maskRowAux rs k l).getD j 0 = 0 := by
  intro l
  induction l with
  | nil =>
    intro k j _ _
    exact List.getD_eq_default _ _ (by simp [TDefGeometricProjection.maskRowAux])
  | cons c rest ih =>
    intro k j hj hw
    cases j with
    | zero =>
      have hc : k < rs.numJoints := by omega
      have hw0 : rs.writable k = false := by simpa using hw
      simp [TDefGeometricProjection.maskRowAux, hc, hw0]
    | succ j2 =>
      have h1 : k + 1 + j2 < rs.numJoints := by omega
      have h2 : rs.writable (k + 1 + j2) = false := by
        have he : k + 1 + j2 = k + (j2 + 1) := by omega
        rw [he]; exact hw
      simpa [TDefGeometricProjection.maskRowAux, List.getD_cons_succ] using
        ih (k + 1) j2 h1 h2

theorem changeRefPoint_getD_zero (p : Vec3) :
    ∀ (l : List Twist) (j : ℕ), l.getD j Twist.zero = Twist.zero →
      (TaskAvoidCollisionsSDF.changeRefPoint p l).getD j Twist.zero =
        Twist.zero := by
  intro l
  induction l with
  | nil =>
    intro j _
    exact List.getD_eq_default _ _ (by simp [TaskAvoidCollisionsSDF.changeRefPoint])
  | cons c rest ih =>
    intro j h
    cases j with
    | zero =>
      rw [List.getD_cons_zero] at h
      subst h
      simp [TaskAvoidCollisionsSDF.changeRefPoint, Twist.zero, Vec3.cross,
        Vec3.add, Vec3.zero]
    | succ j2 =>
      rw [List.getD_cons_succ] at h
      simpa [TaskAvoidCollisionsSDF.changeRefPoint, List.getD_cons_succ] using
        ih j2 h

theorem pfk_jac_masked (env : SdfEnv) (rs : RobotState) (p : GeomPrim)
    (r : List KinQ) (j : ℕ) (hj : j < rs.numJoints)
    (hw : rs.writable j = false)
    (h : TaskAvoidCollisionsSDF.primitiveForwardKinematics env rs p = some r) :
    ∀ kq ∈ r, kq.jac.getD j Twist.zero = Twist.zero := by
  have hmask : ∀ jac : List Twist,
      (TaskAvoidCollisionsSDF.maskColumns rs jac).getD j Twist.zero =
        Twist.zero :=
    fun jac => maskColumnsAux_getD_zero rs jac 0 j (by omega) (by simpa using hw)
  cases p with
  | point pt =>
    cases hc : env.jntToCart pt.frameId with
    | none =>
      simp [TaskAvoidCollisionsSDF.primitiveForwardKinematics,
        TaskAvoidCollisionsSDF.forwardKinematics, hc] at h
    | some fr =>
      cases hjac : env.jntToJac pt.frameId with
      | none =>
        simp [TaskAvoidCollisionsSDF.primitiveForwardKinematics,
          TaskAvoidCollisionsSDF.forwardKinematics, hc, hjac] at h
      | some jac =>
        simp only [TaskAvoidCollisionsSDF.primitiveForwardKinematics,
          TaskAvoidCollisionsSDF.forwardKinematics, hc, hjac,
          Option.some.injEq] at h
        subst h
        intro kq hkq
        rw [List.mem_singleton] at hkq
        subst hkq
        exact changeRefPoint_getD_zero _ _ _ (hmask jac)
  | sphere s =>
    cases hc : env.jntToCart s.frameId with
    | none =>
      simp [TaskAvoidCollisionsSDF.primitiveForwardKinematics,
        TaskAvoidCollisionsSDF.forwardKinematics, hc] at h
    | some fr =>
      cases hjac : env.jntToJac s.frameId with
      | none =>
        simp [TaskAvoidCollisionsSDF.primitiveForwardKinematics,
          TaskAvoidCollisionsSDF.forwardKinematics, hc, hjac] at h
      | some jac =>
        simp only [TaskAvoidCollisionsSDF.primitiveForwardKinematics,
          TaskAvoidCollisionsSDF.forwardKinematics, hc, hjac,
          Option.some.injEq] at h
        subst h
        intro kq hkq
        rw [List.mem_singleton] at hkq
        subst hkq
        exact changeRefPoint_getD_zero _ _ _ (hmask jac)
  | other a b c =>
    simp [TaskAvoidCollisionsSDF.primitiveForwardKinematics] at h

theorem appendRow_masked (env : SdfEnv) (C : ℕ) (kq : KinQ) (g : Vec3)
    (row : List ℚ) (j : ℕ)
    (h : TaskAvoidCollisionsSDF.appendRow env C kq g = some row)
    (hz : kq.jac.getD j Twist.zero = Twist.zero) :
    row.getD j 0 = 0 := by
  simp only [TaskAvoidCollisionsSDF.appendRow] at h
  by_cases hv : env.isValid g
  · rw [if_pos hv] at h
    by_cases hlen : (kq.jac.map fun tw =>
        -(Vec3.dot (normalize3 env.sqrtFn g) tw.vel)).length = C
    · rw [if_pos hlen, Option.some.injEq] at h
      subst h
      by_cases hjl : j < kq.jac.length
      · rw [getD_map_of_lt _ _ _ _ hjl]
        have hz2 : kq.jac[j] = Twist.zero := by
          rw [← List.getD_eq_getElem _ Twist.zero hjl]; exact hz
        rw [hz2]
        simp [Vec3.dot, Twist.zero, Vec3.zero]
      · exact List.getD_eq_default _ _ (by simp; omega)
    · rw [if_neg hlen] at h
      cases h
  · rw [if_neg hv, Option.some.injEq] at h
    subst h
    exact getD_replicate_zero _ _

theorem buildRows_masked (env : SdfEnv) (C : ℕ) (j : ℕ) :
    ∀ (l : List (KinQ × Vec3)) (rows : List (List ℚ)),
      TaskAvoidCollisionsSDF.buildRows env C l = some rows →
      (∀ kg ∈ l, kg.1.jac.getD j Twist.zero = Twist.zero) →
      ∀ r ∈ rows, r.getD j 0 = 0 := by
  intro l
  induction l with
  | nil =>
    intro rows h _ r hr
    simp only [TaskAvoidCollisionsSDF.buildRows, Option.some.injEq] at h
    subst h
    simp at hr
  | cons kg rest ih =>
    intro rows h hall r hr
    cases ha : TaskAvoidCollisionsSDF.appendRow env C kg.1 kg.2 with
    | none => simp [TaskAvoidCollisionsSDF.buildRows, ha] at h
    | some r0 =>
      simp only [TaskAvoidCollisionsSDF.buildRows, ha] at h
      obtain ⟨more, hmore, hrows⟩ := Option.map_eq_some'.mp h
      subst hrows
      rcases List.mem_cons.mp hr with h1 | h2
      · subst h1
        exact appendRow_masked env C kg.1 kg.2 r j ha
          (hall kg (List.mem_cons_self kg rest))
      · exact ih more hmore
          (fun kg2 hkg2 => hall kg2 (List.mem_cons_of_mem _ hkg2)) r h2

theorem updateLoop_masked (env : SdfEnv) (rs : RobotState) (rootId : String)
    (j : ℕ) (hj : j < rs.numJoints) (hw : rs.writable j = false) :
    ∀ (ps : List GeomPrim) (e : List ℚ) (J : MatQ) (c : Int)
      (e2 : List ℚ) (J2 : MatQ),
      (∀ r ∈ J.rows, r.getD j 0 = 0) →
      TaskAvoidCollisionsSDF.updateLoop env rs rootId ps e J =
        some (c, e2, J2) →
      ∀ r ∈ J2.rows, r.getD j 0 = 0 := by
  intro ps
  induction ps with
  | nil =>
    intro e J c e2 J2 hJ h
    simp only [TaskAvoidCollisionsSDF.updateLoop, Option.some.injEq,
      Prod.mk.injEq] at h
    obtain ⟨-, -, h3⟩ := h
    subst h3
    exact hJ
  | cons p rest ih =>
    intro e J c e2 J2 hJ h
    cases hpfk : TaskAvoidCollisionsSDF.primitiveForwardKinematics env rs p with
    | none =>
      simp only [TaskAvoidCollisionsSDF.updateLoop, hpfk, Option.some.injEq,
        Prod.mk.injEq] at h
      obtain ⟨-, -, h3⟩ := h
      subst h3
      exact hJ
    | some kinqs =>
      cases hg : env.obstacleGradientBulk (kinqs.map KinQ.eeP) rootId with
      | none =>
        simp only [TaskAvoidCollisionsSDF.updateLoop, hpfk, hg,
          Option.some.injEq, Prod.mk.injEq] at h
        obtain ⟨-, -, h3⟩ := h
        subst h3
        exact hJ
      | some grads =>
        by_cases h0 : grads.length = 0
        · simp [TaskAvoidCollisionsSDF.updateLoop, hpfk, hg, h0] at h
        · cases hJ2 : TaskAvoidCollisionsSDF.appendTaskJacobian env kinqs
              grads J with
          | none =>
            simp [TaskAvoidCollisionsSDF.updateLoop, hpfk, hg, h0, hJ2] at h
          | some J3 =>
            cases hE : TaskAvoidCollisionsSDF.appendTaskFunction env p kinqs
                grads e with
            | none =>
              simp [TaskAvoidCollisionsSDF.updateLoop, hpfk, hg, h0, hJ2,
                hE] at h
            | some e3 =>
              simp only [TaskAvoidCollisionsSDF.updateLoop, hpfk, hg,
                if_neg h0, hJ2, hE] at h
              refine ih e3 J3 c e2 J2 ?_ h
              simp only [TaskAvoidCollisionsSDF.appendTaskJacobian] at hJ2
              by_cases hlen : kinqs.length = grads.length
              · rw [if_pos hlen] at hJ2
                obtain ⟨newRows, hbr, hJ3⟩ := Option.map_eq_some'.mp hJ2
                subst hJ3
                intro r hr
                rcases List.mem_append.mp hr with h1 | h2
                · exact hJ r h1
                · exact buildRows_masked env J.cols j (kinqs.zip grads)
                    newRows hbr
                    (fun kg hkg => pfk_jac_masked env rs p kinqs j hj hw hpfk
                      kg.1 (List.of_mem_zip hkg).1) r h2
              · rw [if_neg hlen] at hJ2
                cases hJ2

/-- C4: for the SDF avoidance definition in this snapshot, every column
of the task Jacobian produced by `update` that belongs to a non-writable
joint is exactly zero (the velocity Jacobian is masked inside
`forwardKinematics` before any use), and the modelled
`TDefGeometricProjection::maskJacobian` zeroes the same columns — so
non-controlled joints never receive command contributions. -/
theorem c4_nonwritable_joint_columns_zero (env : SdfEnv) (rs : RobotState)
    (st : TaskDefinitionState) (c : Int) (st2 : TaskDefinitionState) (j : ℕ)
    (hj : j < rs.numJoints) (hw : rs.writable j = false)
    (h : TaskAvoidCollisionsSDF.update env rs st = some (c, st2)) :
    (∀ row ∈ st2.J.rows, row.getD j 0 = 0) ∧
    (∀ J : MatQ,
      ∀ row ∈ (TDefGeometricProjection.maskJacobian rs J).rows,
        row.getD j 0 = 0) := by
  constructor
  · simp only [TaskAvoidCollisionsSDF.update] at h
    cases hu : TaskAvoidCollisionsSDF.updateLoop env rs st.rootFrameId
        st.primitives [] ⟨rs.numJoints, []⟩ with
    | none => rw [hu] at h; cases h
    | some r =>
      rcases r with ⟨rc, re, rJ⟩
      rw [hu] at h
      simp only [Option.map_some', Option.some.injEq, Prod.mk.injEq] at h
      obtain ⟨-, hst⟩ := h
      intro row hrow
      have hJ2 : st2.J = rJ := by rw [← hst]
      rw [hJ2] at hrow
      exact updateLoop_masked env rs st.rootFrameId j hj hw st.primitives []
        ⟨rs.numJoints, []⟩ rc re rJ (by simp) hu row hrow
  · intro J row hrow
    simp only [TDefGeometricProjection.maskJacobian] at hrow
    obtain ⟨row0, hrow0, hmap⟩ := List.mem_map.mp hrow
    subst hmap
    exact maskRowAux_getD_zero rs row0 0 j (by omega) (by simpa using hw)

/-- Evaluation of the SDF update on the sample task under the
all-valid environment: one row `[-1, 0]` and `e = [1 - 0.005]`. -/
theorem update_envValid_sample :
    TaskAvoidCollisionsSDF.update envValid rsSample sdfStSample =
      some (0, { sdfStSample with e := [199 / 200], J := ⟨2, [[-1, 0]]⟩ }) := by
  simp only [TaskAvoidCollisionsSDF.update, TaskAvoidCollisionsSDF.updateLoop,
    TaskAvoidCollisionsSDF.primitiveForwardKinematics,
    TaskAvoidCollisionsSDF.forwardKinematics,
    TaskAvoidCollisionsSDF.maskColumns, TaskAvoidCollisionsSDF.maskColumnsAux,
    TaskAvoidCollisionsSDF.changeRefPoint,
    TaskAvoidCollisionsSDF.appendTaskJacobian,
    TaskAvoidCollisionsSDF.buildRows, TaskAvoidCollisionsSDF.appendRow,
    TaskAvoidCollisionsSDF.appendTaskFunction,
    TaskAvoidCollisionsSDF.taskFunVal, TaskAvoidCollisionsSDF.SAFETY_DISTANCE,
    sdfStSample, envValid, rsSample, pointSample, frameSample, jacSample,
    normalize3, norm3, Vec3.sqNorm, Vec3.dot, Vec3.smul, Vec3.add, Vec3.cross,
    Mat3.mulVec, Mat3.diag, Twist.zero, Vec3.zero, KinQ.eeP]
  norm_num [TaskAvoidCollisionsSDF.taskFunVal, norm3, Vec3.sqNorm,
    TaskAvoidCollisionsSDF.SAFETY_DISTANCE]

/-- Witness for C4: on the sample SDF task, joint 1 is non-writable and
the single produced Jacobian row has a zero in column 1. -/
theorem c4_nonwritable_joint_columns_zero_witness :
    ([-1, 0] : List ℚ).getD 1 0 = 0 :=
  (c4_nonwritable_joint_columns_zero envValid rsSample sdfStSample 0
    { sdfStSample with e := [199 / 200], J := ⟨2, [[-1, 0]]⟩ } 1
    (by decide) (by decide) update_envValid_sample).1 [-1, 0] (by simp)

/-- If every primitive's processing step succeeds (with one gradient per
primitive), the SDF update loop succeeds with exactly the rows and
task-function entries those steps produce, in order. -/
theorem updateLoop_build (env : SdfEnv) (rs : RobotState) (rootId : String) :
    ∀ (ps : List GeomPrim) (pf : ℕ → List ℚ × ℚ) (e : List ℚ) (J : MatQ),
      (∀ i, i < ps.length →
        TaskAvoidCollisionsSDF.primStep env rs rootId J.cols
          (ps.getD i default) = some (pf i)) →
      TaskAvoidCollisionsSDF.updateLoop env rs rootId ps e J =
        some (0, e ++ (List.range ps.length).map (fun i => (pf i).2),
          ⟨J.cols, J.rows ++ (List.range ps.length).map (fun i => (pf i).1)⟩) := by
  intro ps
  induction ps with
  | nil =>
    intro pf e J _
    simp [TaskAvoidCollisionsSDF.updateLoop]
  | cons p rest ih =>
    intro pf e J h
    have h0 := h 0 (by simp)
    rw [List.getD_cons_zero] at h0
    cases hpfk : TaskAvoidCollisionsSDF.primitiveForwardKinematics env rs p with
    | none => simp [TaskAvoidCollisionsSDF.primStep, hpfk] at h0
    | some kinqs =>
      cases kinqs with
      | nil => simp [TaskAvoidCollisionsSDF.primStep, hpfk] at h0
      | cons kq tl =>
        cases tl with
        | cons b tl2 => simp [TaskAvoidCollisionsSDF.primStep, hpfk] at h0
        | nil =>
          cases hg : env.obstacleGradientBulk [kq.eeP] rootId with
          | none => simp [TaskAvoidCollisionsSDF.primStep, hpfk, hg] at h0
          | some gs =>
            cases gs with
            | nil => simp [TaskAvoidCollisionsSDF.primStep, hpfk, hg] at h0
            | cons g gtl =>
              cases gtl with
              | cons g2 gtl2 =>
                simp [TaskAvoidCollisionsSDF.primStep, hpfk, hg] at h0
              | nil =>
                simp only [TaskAvoidCollisionsSDF.primStep, hpfk, hg] at h0
                obtain ⟨row, hrow, hpf0⟩ := Option.map_eq_some'.mp h0
                have hloop := ih (fun i => pf (i + 1))
                  (e ++ [TaskAvoidCollisionsSDF.taskFunVal env p g])
                  ⟨J.cols, J.rows ++ [row]⟩
                  (by
                    intro i hi
                    have hh := h (i + 1) (by simpa using Nat.succ_lt_succ hi)
                    rw [List.getD_cons_succ] at hh
                    exact hh)
                have hJ : TaskAvoidCollisionsSDF.appendTaskJacobian env [kq]
                    [g] J = some ⟨J.cols, J.rows ++ [row]⟩ := by
                  simp [TaskAvoidCollisionsSDF.appendTaskJacobian,
                    TaskAvoidCollisionsSDF.buildRows, hrow]
                have hE : TaskAvoidCollisionsSDF.appendTaskFunction env p [kq]
                    [g] e =
                    some (e ++ [TaskAvoidCollisionsSDF.taskFunVal env p g]) := by
                  simp [TaskAvoidCollisionsSDF.appendTaskFunction]
                simp only [TaskAvoidCollisionsSDF.updateLoop, hpfk,
                  List.map_cons, List.map_nil, hg, List.length_cons,
                  List.length_nil, Nat.succ_ne_zero, if_false, hJ, hE, hloop]
                simp only [List.range_succ_eq_map, List.map_cons,
                  List.map_map, Function.comp, ← hpf0, List.length_cons]
                simp [List.append_assoc]

/-- C2: when every monitored primitive's forward kinematics and gradient
query succeed, the SDF update succeeds (code 0) even if gradients are
invalid, and a primitive whose gradient `isValid` rejects contributes an
all-zero Jacobian row and a `0` task-function entry. -/
theorem c2_sdf_invalid_gradient_zero_row (env : SdfEnv) (rs : RobotState)
    (st : TaskDefinitionState) (pf : ℕ → List ℚ × ℚ)
    (h : ∀ i, i < st.primitives.length →
      TaskAvoidCollisionsSDF.primStep env rs st.rootFrameId rs.numJoints
        (st.primitives.getD i default) = some (pf i)) :
    TaskAvoidCollisionsSDF.update env rs st =
      some (0, { st with
        e := (List.range st.primitives.length).map fun i => (pf i).2,
        J := ⟨rs.numJoints,
          (List.range st.primitives.length).map fun i => (pf i).1⟩ }) ∧
    (∀ i, i < st.primitives.length → ∀ kq g,
      TaskAvoidCollisionsSDF.primitiveForwardKinematics env rs
        (st.primitives.getD i default) = some [kq] →
      env.obstacleGradientBulk [kq.eeP] st.rootFrameId = some [g] →
      env.isValid g = false →
      pf i = (List.replicate rs.numJoints 0, 0)) := by
  constructor
  · simp only [TaskAvoidCollisionsSDF.update]
    rw [updateLoop_build env rs st.rootFrameId st.primitives pf []
      ⟨rs.numJoints, []⟩ h]
    simp
  · intro i hi kq g hpfk hg hv
    have hstep := h i hi
    simp only [TaskAvoidCollisionsSDF.primStep, hpfk, hg,
      TaskAvoidCollisionsSDF.appendRow, hv, Bool.false_eq_true, if_false,
      TaskAvoidCollisionsSDF.taskFunVal, Option.map_some',
      Option.some.injEq] at hstep
    exact hstep.symm

/-- Witness helper: evaluation of one primitive step under the
all-invalid environment. -/
theorem primStep_envInvalid_point :
    TaskAvoidCollisionsSDF.primStep envInvalid rsSample
      sdfStSample.rootFrameId rsSample.numJoints (.point pointSample) =
      some (List.replicate 2 0, 0) := by
  simp only [TaskAvoidCollisionsSDF.primStep,
    TaskAvoidCollisionsSDF.primitiveForwardKinematics,
    TaskAvoidCollisionsSDF.forwardKinematics,
    TaskAvoidCollisionsSDF.maskColumns, TaskAvoidCollisionsSDF.maskColumnsAux,
    TaskAvoidCollisionsSDF.changeRefPoint, TaskAvoidCollisionsSDF.appendRow,
    TaskAvoidCollisionsSDF.taskFunVal, sdfStSample, envInvalid, rsSample,
    pointSample, frameSample, jacSample, normalize3, norm3, Vec3.sqNorm,
    Vec3.dot, Vec3.smul, Vec3.add, Vec3.cross, Mat3.mulVec, Mat3.diag,
    Twist.zero, Vec3.zero, KinQ.eeP]
  norm_num [List.replicate]

/-- Witness for C2: the sample one-point SDF task under the all-invalid
environment updates successfully with a zero row and zero entry. -/
theorem c2_sdf_invalid_gradient_zero_row_witness :
    TaskAvoidCollisionsSDF.update envInvalid rsSample sdfStSample =
      some (0, { sdfStSample with
        e := (List.range sdfStSample.primitives.length).map
          fun _ => (0 : ℚ),
        J := ⟨rsSample.numJoints,
          (List.range sdfStSample.primitives.length).map
            fun _ => List.replicate 2 (0 : ℚ)⟩ }) :=
  (c2_sdf_invalid_gradient_zero_row envInvalid rsSample sdfStSample
    (fun _ => (List.replicate 2 0, 0))
    (by
      intro i hi
      have hi0 : i = 0 := by
        simpa [sdfStSample] using hi
      subst hi0
      exact primStep_envInvalid_point)).1

/-- C3: when every monitored primitive's step succeeds, the SDF update
succeeds with, per primitive with a valid gradient, a Jacobian row equal
to the negated normalized gradient applied to the velocity Jacobian and
a task-function entry equal to the gradient norm minus the safety margin
(minus the radius for a sphere); and after `init`, every row's task type
is GREATER_OR_EQUAL (`1`). -/
theorem c3_sdf_valid_gradient_rows (env : SdfEnv) (rs : RobotState)
    (st : TaskDefinitionState) (pf : ℕ → List ℚ × ℚ)
    (h : ∀ i, i < st.primitives.length →
      TaskAvoidCollisionsSDF.primStep env rs st.rootFrameId rs.numJoints
        (st.primitives.getD i default) = some (pf i)) :
    TaskAvoidCollisionsSDF.update env rs st =
      some (0, { st with
        e := (List.range st.primitives.length).map fun i => (pf i).2,
        J := ⟨rs.numJoints,
          (List.range st.primitives.length).map fun i => (pf i).1⟩ }) ∧
    (∀ i, i < st.primitives.length → ∀ kq g,
      TaskAvoidCollisionsSDF.primitiveForwardKinematics env rs
        (st.primitives.getD i default) = some [kq] →
      env.obstacleGradientBulk [kq.eeP] st.rootFrameId = some [g] →
      env.isValid g = true →
      (pf i).1 = kq.jac.map
        (fun tw => -(Vec3.dot (normalize3 env.sqrtFn g) tw.vel)) ∧
      (∀ pt, st.primitives.getD i default = .point pt →
        (pf i).2 = norm3 env.sqrtFn g -
          TaskAvoidCollisionsSDF.SAFETY_DISTANCE) ∧
      (∀ s, st.primitives.getD i default = .sphere s →
        (pf i).2 = norm3 env.sqrtFn g -
          TaskAvoidCollisionsSDF.SAFETY_DISTANCE - s.radius)) ∧
    (∀ (gpm : GeometricPrimitiveMap) (parameters : List String)
        (st0 : TaskDefinitionState),
      (TaskAvoidCollisionsSDF.init gpm rs parameters st0).1 = 0 →
      (TaskAvoidCollisionsSDF.init gpm rs parameters st0).2.taskTypes =
        List.replicate
          (TaskAvoidCollisionsSDF.init gpm rs parameters st0).2.nDimensions
          1) := by
  refine ⟨?_, ?_, ?_⟩
  · simp only [TaskAvoidCollisionsSDF.update]
    rw [updateLoop_build env rs st.rootFrameId st.primitives pf []
      ⟨rs.numJoints, []⟩ h]
    simp
  · intro i hi kq g hpfk hg hv
    have hstep := h i hi
    simp only [TaskAvoidCollisionsSDF.primStep, hpfk, hg,
      TaskAvoidCollisionsSDF.appendRow, hv, if_true] at hstep
    by_cases hlen : ((kq.jac.map
        (fun tw => -(Vec3.dot (normalize3 env.sqrtFn g) tw.vel))).length =
        rs.numJoints)
    · rw [if_pos hlen] at hstep
      simp only [Option.map_some', Option.some.injEq] at hstep
      refine ⟨?_, ?_, ?_⟩
      · rw [← hstep]
      · intro pt hpt
        rw [← hstep, hpt]
        simp [TaskAvoidCollisionsSDF.taskFunVal, hv]
      · intro s hs
        rw [← hstep, hs]
        simp [TaskAvoidCollisionsSDF.taskFunVal, hv]
    · rw [if_neg hlen] at hstep
      simp at hstep
  · intro gpm parameters st0 h0
    by_cases hlt : parameters.length < 2
    · simp [TaskAvoidCollisionsSDF.init, hlt] at h0
    · simp only [TaskAvoidCollisionsSDF.init, if_neg hlt] at h0 ⊢
      split at h0
      · next st2 heq => simp
      · next ci st2 hne heq =>
        have hc : ci = 0 := h0
        exact absurd (hc ▸ rfl) hne

/-- Witness helper: evaluation of one primitive step under the
all-valid environment. -/
theorem primStep_envValid_point :
    TaskAvoidCollisionsSDF.primStep envValid rsSample
      sdfStSample.rootFrameId rsSample.numJoints (.point pointSample) =
      some ([-1, 0], 199 / 200) := by
  simp only [TaskAvoidCollisionsSDF.primStep,
    TaskAvoidCollisionsSDF.primitiveForwardKinematics,
    TaskAvoidCollisionsSDF.forwardKinematics,
    TaskAvoidCollisionsSDF.maskColumns, TaskAvoidCollisionsSDF.maskColumnsAux,
    TaskAvoidCollisionsSDF.changeRefPoint, TaskAvoidCollisionsSDF.appendRow,
    TaskAvoidCollisionsSDF.taskFunVal, TaskAvoidCollisionsSDF.SAFETY_DISTANCE,
    sdfStSample, envValid, rsSample, pointSample, frameSample, jacSample,
    normalize3, norm3, Vec3.sqNorm, Vec3.dot, Vec3.smul, Vec3.add, Vec3.cross,
    Mat3.mulVec, Mat3.diag, Twist.zero, Vec3.zero, KinQ.eeP]
  norm_num [TaskAvoidCollisionsSDF.taskFunVal, norm3, Vec3.sqNorm,
    TaskAvoidCollisionsSDF.SAFETY_DISTANCE]

/-- Witness for C3: the sample one-point SDF task under the all-valid
environment produces the row `-(g/‖g‖)ᵀ·Jvel = [-1, 0]` and
`e = ‖g‖ - 0.005 = 199/200`. -/
theorem c3_sdf_valid_gradient_rows_witness :
    TaskAvoidCollisionsSDF.update envValid rsSample sdfStSample =
      some (0, { sdfStSample with
        e := (List.range sdfStSample.primitives.length).map
          fun _ => (199 / 200 : ℚ),
        J := ⟨rsSample.numJoints,
          (List.range sdfStSample.primitives.length).map
            fun _ => ([-1, 0] : List ℚ)⟩ }) :=
  (c3_sdf_valid_gradient_rows envValid rsSample sdfStSample
    (fun _ => ([-1, 0], 199 / 200))
    (by
      intro i hi
      have hi0 : i = 0 := by
        simpa [sdfStSample] using hi
      subst hi0
      exact primStep_envValid_point)).1

/-- Witness for the amended C7: an unrecognized definition token is a
dispatch error and makes `Task::init` return `-3`. -/
theorem c7_dispatch_err_iff_witness :
    constructDefinition ["bogus"] = Construct.err ∧
    Task.init tenvFail {} ["bogus"] ["TDynFirstOrder"] rsSample =
      some (-3, ({} : Task)) :=
  ⟨(c7_dispatch_err_iff.1 "bogus" []).mpr (Or.inl (by decide)),
   c7_dispatch_err_iff.2.2.1 tenvFail {} rsSample ["bogus"]
     ["TDynFirstOrder"] (by decide) (by decide)
     ((c7_dispatch_err_iff.1 "bogus" []).mpr (Or.inl (by decide)))⟩

end Hiqp
